import Mathlib

/-!
Verification of the `equake` filter data model and request layer.

This file is a shallow embedding of the relevant parts of the repository:
- `equake/_utils.py`   (unit conversion, type-check decorator semantics)
- `equake/filt.py`     (TimeFilter, RectLocationFilter, circle filters,
                        the private range filter, EarthquakeFilter)
- `equake/_requests.py` (query-string serialization, error classification)
- `equake/quake.py`    (the `count` retry loop and argument validation)

Python numbers that may hold the IEEE infinities (depth/magnitude bounds,
and the generic range filter) are modelled by `PyNum`: the rationals
extended with two infinite sentinels, with the total order Python's
comparisons induce on such values.  NaN never appears in the source and is
outside the model.  Finite coordinate and time values are modelled by `ℚ`
and by `ℕ` ticks (microseconds since `datetime.min`).  Raising an
exception is modelled by returning `Except.error`; since in the source
every `raise` in a setter happens before the attribute assignment, the
object state after a failed call is the unchanged prior state, which the
`...State` helper functions make explicit.
-/

/-- Python exception values relevant to the embedded code.  `httpError`,
`requestError` and `timeoutError` are the classified transport errors of
`equake.exceptions`; `typeError` and `valueError` are the builtin kinds the
validators raise; `otherError` stands for any other exception an attempt
may raise (e.g. a `KeyError` while decoding the response body). -/
inductive PyErr where
  | typeError (msg : String)
  | valueError (msg : String)
  | httpError (reason : String)
  | requestError (reason : String)
  | timeoutError
  | otherError (msg : String)
deriving DecidableEq, Repr

/-- The transport-error kinds: exactly those produced by
`_requests._handle_errors` (HTTP error, connection/request error, timeout). -/
def PyErr.isTransport : PyErr → Bool
  | .httpError _ => true
  | .requestError _ => true
  | .timeoutError => true
  | _ => false

/-- A Python number as used for filter bounds: a rational, or one of the
infinite sentinels `float("-inf")` / `float("inf")`. -/
inductive PyNum where
  | ninf : PyNum
  | fin (q : ℚ) : PyNum
  | inf : PyNum
deriving DecidableEq, Repr

/-- Python `<` on such numbers. -/
def PyNum.lt : PyNum → PyNum → Bool
  | .ninf, .ninf => false
  | .ninf, _ => true
  | .fin _, .ninf => false
  | .fin a, .fin b => decide (a < b)
  | .fin _, .inf => true
  | .inf, _ => false

/-- Python `<=` on such numbers. -/
def PyNum.le (a b : PyNum) : Bool := !(PyNum.lt b a)

/-- Python `min(a, b)` (keeps the first argument on ties). -/
def PyNum.pymin (a b : PyNum) : PyNum := if PyNum.le a b then a else b

/-- Python `max(a, b)` (keeps the first argument on ties). -/
def PyNum.pymax (a b : PyNum) : PyNum := if PyNum.le b a then a else b

/-! ## The private range filter (`filt._RangeFilter`)

State of a constructed `_RangeFilter`: the domain bounds `_actual_min` /
`_actual_max` fixed at construction, and the current `_min` / `_max`. -/

structure RangeState where
  actualMin : PyNum
  actualMax : PyNum
  min : PyNum
  max : PyNum
deriving DecidableEq, Repr

/-- `_RangeFilter.__init__`: stores the domain bounds, then runs
`_set_min` (with `_max` still absent, so `getattr(self, "_max", inf)`
yields `inf`), then `_set_max` (with `_min` present). -/
def rangeInit (vmin vmax actualMin actualMax : PyNum) : Except PyErr RangeState :=
  if PyNum.lt vmin actualMin then
    .error (.valueError "value must not be less than the actual minimum")
  else if PyNum.lt PyNum.inf vmin then
    .error (.valueError "minimum must not be greater than the maximum")
  else if PyNum.lt actualMax vmax then
    .error (.valueError "value must not be greater than the actual maximum")
  else if PyNum.lt vmax vmin then
    .error (.valueError "maximum must not be less than minimum")
  else
    .ok ⟨actualMin, actualMax, vmin, vmax⟩

/-- `_RangeFilter._set_min` on a constructed object. -/
def rangeSetMin (s : RangeState) (v : PyNum) : Except PyErr RangeState :=
  if PyNum.lt v s.actualMin then
    .error (.valueError "value must not be less than the actual minimum")
  else if PyNum.lt s.max v then
    .error (.valueError "minimum must not be greater than the maximum")
  else
    .ok { s with min := v }

/-- `_RangeFilter._set_max` on a constructed object. -/
def rangeSetMax (s : RangeState) (v : PyNum) : Except PyErr RangeState :=
  if PyNum.lt s.actualMax v then
    .error (.valueError "value must not be greater than the actual maximum")
  else if PyNum.lt v s.min then
    .error (.valueError "maximum must not be less than minimum")
  else
    .ok { s with max := v }

/-- The object state after a `_set_min` call: every `raise` in the source
precedes the assignment `self._min = _min`, so a failing call leaves the
prior state in place. -/
def rangeSetMinState (s : RangeState) (v : PyNum) : RangeState :=
  match rangeSetMin s v with
  | .ok s2 => s2
  | .error _ => s

/-- The object state after a `_set_max` call (see `rangeSetMinState`). -/
def rangeSetMaxState (s : RangeState) (v : PyNum) : RangeState :=
  match rangeSetMax s v with
  | .ok s2 => s2
  | .error _ => s

/-- `DepthFilter(min_depth, max_depth)` with the default unit `"km"`:
a range filter with open domain bounds. -/
def depthFilterInit (vmin vmax : PyNum) : Except PyErr RangeState :=
  rangeInit vmin vmax PyNum.ninf PyNum.inf

/-- `MagnitudeFilter(min_mag, max_mag)`: a range filter with open domain
bounds. -/
def magnitudeFilterInit (vmin vmax : PyNum) : Except PyErr RangeState :=
  rangeInit vmin vmax PyNum.ninf PyNum.inf

/-- `IntensityFilter(min_intensity, max_intensity)`: a range filter with
domain bounds `MIN_INTENSITY = 0` and `MAX_INTENSITY = 12`. -/
def intensityFilterInit (vmin vmax : PyNum) : Except PyErr RangeState :=
  rangeInit vmin vmax (PyNum.fin 0) (PyNum.fin 12)

/-! ## Time filter (`filt.TimeFilter`)

Instants are `ℕ` ticks of one microsecond counted from `datetime.min`
(1 Jan 1 AD 00:00:00), the resolution of Python's `datetime`. -/

/-- `timedelta(DEFAULT_DAYS_GAP)` = 30 days, in microsecond ticks. -/
def D30 : ℕ := 2592000000000

structure TimeFilterState where
  start : ℕ
  endTime : ℕ
  updated : ℕ
deriving DecidableEq, Repr

/-- `TimeFilter.__init__`: resolves `end`, then `start`, then `updated`,
in that order.  `end` defaults to now; an explicit `end` is stored by the
`end` setter, whose `start ≤ end` check is vacuous because `_start` is not
yet set.  `start` defaults to `end - 30 days`, falling back to `end` when
the subtraction overflows below `datetime.min` (i.e. `end < D30` ticks);
an explicit `start` must satisfy `start ≤ end`.  `updated` defaults to the
resolved `start`; an explicit `updated` has no cross-field check. -/
def timeFilterInit (startArg endArg updatedArg : Option ℕ) (now : ℕ) :
    Except PyErr TimeFilterState :=
  let e := endArg.getD now
  match startArg with
  | none =>
    let s := if D30 ≤ e then e - D30 else e
    .ok ⟨s, e, updatedArg.getD s⟩
  | some s =>
    if e < s then
      .error (.valueError "Start time must not be later than end time.")
    else
      .ok ⟨s, e, updatedArg.getD s⟩

/-! ## Rectangle location filter (`filt.RectLocationFilter`)

Coordinates are finite Python numbers, modelled by `ℚ`.  The latitude
domain is `[-90, 90]`; the longitude domain is the doubled range
`[-360, 360]` (`RECT_MIN_LONGITUDE = -360`, `RECT_MAX_LONGITUDE = 360`). -/

structure RectState where
  min_lat : ℚ
  min_long : ℚ
  max_lat : ℚ
  max_long : ℚ
deriving DecidableEq, Repr

/-- `RectLocationFilter.__init__`: `_set_position` runs for `min_lat`,
`min_long`, `max_lat`, `max_long` in that order.  While a bound's partner
is still absent, `getattr` supplies `inf` (for a missing max) or `-inf`
(for a missing min), so the cross checks of the two min calls are vacuous
and only the two max calls compare against the already-set mins. -/
def rectInit (a b c d : ℚ) : Except PyErr RectState :=
  if a < -90 then
    .error (.valueError "Minimum latitude must not be less than -90")
  else if b < -360 then
    .error (.valueError "Minimum longitude must not be less than -360")
  else if 90 < c then
    .error (.valueError "Maximum latitude must not be greater than 90")
  else if c < a then
    .error (.valueError "Maximum latitude must be greater than minimum latitude")
  else if 360 < d then
    .error (.valueError "Maximum longitude must not be greater than 360")
  else if d < b then
    .error (.valueError "Maximum longitude must be greater than minimum longitude")
  else
    .ok ⟨a, b, c, d⟩

/-- The `min_lat` setter: `_set_position(v, "_min_lat", "latitude", "min",
MIN_LATITUDE)` on a constructed object. -/
def rectSetMinLat (s : RectState) (v : ℚ) : Except PyErr RectState :=
  if v < -90 then
    .error (.valueError "Minimum latitude must not be less than -90")
  else if s.max_lat < v then
    .error (.valueError "Minimum latitude must be less than maximum latitude")
  else
    .ok { s with min_lat := v }

/-- The `min_long` setter on a constructed object. -/
def rectSetMinLong (s : RectState) (v : ℚ) : Except PyErr RectState :=
  if v < -360 then
    .error (.valueError "Minimum longitude must not be less than -360")
  else if s.max_long < v then
    .error (.valueError "Minimum longitude must be less than maximum longitude")
  else
    .ok { s with min_long := v }

/-- The `max_lat` setter on a constructed object. -/
def rectSetMaxLat (s : RectState) (v : ℚ) : Except PyErr RectState :=
  if 90 < v then
    .error (.valueError "Maximum latitude must not be greater than 90")
  else if v < s.min_lat then
    .error (.valueError "Maximum latitude must be greater than minimum latitude")
  else
    .ok { s with max_lat := v }

/-- The `max_long` setter on a constructed object. -/
def rectSetMaxLong (s : RectState) (v : ℚ) : Except PyErr RectState :=
  if 360 < v then
    .error (.valueError "Maximum longitude must not be greater than 360")
  else if v < s.min_long then
    .error (.valueError "Maximum longitude must be greater than minimum longitude")
  else
    .ok { s with max_long := v }

/-- The states a `RectLocationFilter` object can be in: successfully
constructed, or reached from a reachable state by a successful setter
call (a failing setter call leaves the state unchanged, so it adds no
new states). -/
inductive RectReachable : RectState → Prop where
  | init (a b c d : ℚ) (s : RectState) (h : rectInit a b c d = .ok s) :
      RectReachable s
  | setMinLat (s : RectState) (v : ℚ) (s2 : RectState)
      (hs : RectReachable s) (h : rectSetMinLat s v = .ok s2) :
      RectReachable s2
  | setMinLong (s : RectState) (v : ℚ) (s2 : RectState)
      (hs : RectReachable s) (h : rectSetMinLong s v = .ok s2) :
      RectReachable s2
  | setMaxLat (s : RectState) (v : ℚ) (s2 : RectState)
      (hs : RectReachable s) (h : rectSetMaxLat s v = .ok s2) :
      RectReachable s2
  | setMaxLong (s : RectState) (v : ℚ) (s2 : RectState)
      (hs : RectReachable s) (h : rectSetMaxLong s v = .ok s2) :
      RectReachable s2

/-- The invariant claimed for every reachable rectangle filter state. -/
def RectInv (s : RectState) : Prop :=
  -90 ≤ s.min_lat ∧ s.min_lat ≤ s.max_lat ∧ s.max_lat ≤ 90 ∧
  -360 ≤ s.min_long ∧ s.min_long ≤ s.max_long ∧ s.max_long ≤ 360

/-! ## Unit conversion (`_utils._convert_units`) and the circle filters -/

/-- The `DISTANCE_UNITS` table of `filt.py`: unit name to ratio relative
to kilometres (`{"km": 1, "mi": 1.609344}`). -/
def DISTANCE_UNITS : List (String × ℚ) := [("km", 1), ("mi", 1609344 / 1000000)]

/-- Python dict lookup `units[u]`; `none` models the `KeyError` case. -/
def unitsLookup (units : List (String × ℚ)) (u : String) : Option ℚ :=
  match units with
  | [] => none
  | (k, r) :: rest => if k = u then some r else unitsLookup rest u

/-- `_utils._convert_units(value, _from, to, units)` returns
`value * (units[_from] / units[to])`; an absent unit is a `KeyError`. -/
def convertUnits (value : ℚ) (fromU toU : String) (units : List (String × ℚ)) :
    Option ℚ :=
  match unitsLookup units fromU, unitsLookup units toU with
  | some a, some b => some (value * (a / b))
  | _, _ => none

/-- State of a `CircleDistanceLocationFilter`: `_radius` holds the
kilometre value. -/
structure CircleDistState where
  lat : ℚ
  long : ℚ
  radius : ℚ
deriving DecidableEq, Repr

/-- The `radius_km` getter. -/
def cdlfRadiusKm (s : CircleDistState) : ℚ := s.radius

/-- The `radius_mi` getter:
`_convert_units(self.radius_km, KM, MI, DISTANCE_UNITS)`. -/
def cdlfRadiusMi (s : CircleDistState) : Option ℚ :=
  convertUnits (cdlfRadiusKm s) "km" "mi" DISTANCE_UNITS

/-- The `radius_mi` setter:
`self._set_radius(_convert_units(radius_mi, MI, KM, DISTANCE_UNITS))`,
where `_set_radius` rejects a negative kilometre value. -/
def cdlfSetRadiusMi (s : CircleDistState) (r : ℚ) : Except PyErr CircleDistState :=
  match convertUnits r "mi" "km" DISTANCE_UNITS with
  | none => .error (.otherError "KeyError")
  | some km =>
    if km < 0 then .error (.valueError "Radius must not be less than 0")
    else .ok { s with radius := km }

/-- State of a `CircleLocationFilter` (radius in degrees). -/
structure CircleState where
  lat : ℚ
  long : ℚ
  radius : ℚ
deriving DecidableEq, Repr

/-! ## The composite filter (`filt.EarthquakeFilter`) -/

/-- The location filter variants an `EarthquakeFilter` can hold. -/
inductive LocState where
  | rect (r : RectState)
  | circle (c : CircleState)
  | circleDist (c : CircleDistState)
deriving DecidableEq, Repr

structure EFState where
  time_filter : TimeFilterState
  location_filter : LocState
  depth_filter : RangeState
  magnitude_filter : RangeState
  intensity_filter : RangeState
  pager_level : Option String
  min_reports : ℕ
deriving DecidableEq, Repr

/-- The canonical `PAGER_LEVELS` tuple. -/
def PAGER_LEVELS : List String := ["green", "yellow", "orange", "red"]

/-- The state `TimeFilter()` (all arguments `None`) produces at time
`now`; see `timeFilterInit_default` below for the correspondence. -/
def timeFilterDefault (now : ℕ) : TimeFilterState :=
  ⟨if D30 ≤ now then now - D30 else now, now,
   if D30 ≤ now then now - D30 else now⟩

/-- The whole-Earth rectangle `RectLocationFilter(-90, -360, 90, 360)`;
see `rectInit_default` below. -/
def rectDefault : RectState := ⟨-90, -360, 90, 360⟩

/-- The unbounded `DepthFilter()` / `MagnitudeFilter()` state; see
`rangeInit_open_default` below. -/
def openRangeDefault : RangeState := ⟨PyNum.ninf, PyNum.inf, PyNum.ninf, PyNum.inf⟩

/-- The full-range `IntensityFilter()` state; see
`intensityFilterInit_default` below. -/
def intensityDefault : RangeState :=
  ⟨PyNum.fin 0, PyNum.fin 12, PyNum.fin 0, PyNum.fin 12⟩

/-- `EarthquakeFilter.__init__`.  Each sub-filter argument, when `None`,
is replaced by its canonical default.  Type checks of non-`None` arguments
are static in the embedding.  `pager_level`, when a string, is stripped
and must be one of the four PAGER levels; `min_reports` must be a
non-negative integer; these two checks run in this order. -/
def efInit (tfArg : Option TimeFilterState) (lfArg : Option LocState)
    (dfArg mfArg intfArg : Option RangeState) (pagerArg : Option String)
    (minReportsArg : ℤ) (now : ℕ) : Except PyErr EFState :=
  let tf := tfArg.getD (timeFilterDefault now)
  let lf := lfArg.getD (.rect rectDefault)
  let df := dfArg.getD openRangeDefault
  let mf := mfArg.getD openRangeDefault
  let intf := intfArg.getD intensityDefault
  let pagerRes : Except PyErr (Option String) :=
    match pagerArg with
    | none => .ok none
    | some p =>
      let p := p.trim
      if p ∈ PAGER_LEVELS then .ok (some p)
      else .error (.valueError "PAGER Level must be green, yellow, orange or red")
  match pagerRes with
  | .error e => .error e
  | .ok pager =>
    if minReportsArg < 0 then
      .error (.valueError "Minimum reports must not be less than 0")
    else
      .ok ⟨tf, lf, df, mf, intf, pager, minReportsArg.toNat⟩

/-- The state of a default `EarthquakeFilter()` constructed at time `now`. -/
def efDefault (now : ℕ) : EFState :=
  ⟨timeFilterDefault now, .rect rectDefault, openRangeDefault,
   openRangeDefault, intensityDefault, none, 0⟩

/-- The `time_filter` setter, wrapped in
`_method_type_check("time_filter", TimeFilter)`: `None` is not a
`TimeFilter` instance, so the wrapper raises a `TypeError` before the
wrapped setter (and hence the assignment) runs. -/
def efSetTimeFilter (s : EFState) (v : Option TimeFilterState) :
    Except PyErr EFState :=
  match v with
  | none => .error (.typeError "time_filter must be of type TimeFilter, not None")
  | some tf => .ok { s with time_filter := tf }

/-- The `location_filter` setter (allowed types: the three location
variants, not `None`). -/
def efSetLocationFilter (s : EFState) (v : Option LocState) :
    Except PyErr EFState :=
  match v with
  | none => .error (.typeError
      "location_filter must be of type RectLocationFilter, CircleLocationFilter or CircleDistanceLocationFilter, not None")
  | some lf => .ok { s with location_filter := lf }

/-- The `depth_filter` setter (allowed type: `DepthFilter`, not `None`). -/
def efSetDepthFilter (s : EFState) (v : Option RangeState) :
    Except PyErr EFState :=
  match v with
  | none => .error (.typeError "depth_filter must be of type DepthFilter, not None")
  | some df => .ok { s with depth_filter := df }

/-- The `magnitude_filter` setter (allowed type: `MagnitudeFilter`). -/
def efSetMagnitudeFilter (s : EFState) (v : Option RangeState) :
    Except PyErr EFState :=
  match v with
  | none => .error (.typeError
      "magnitude_filter must be of type MagnitudeFilter, not None")
  | some mf => .ok { s with magnitude_filter := mf }

/-- The `intensity_filter` setter (allowed type: `IntensityFilter`). -/
def efSetIntensityFilter (s : EFState) (v : Option RangeState) :
    Except PyErr EFState :=
  match v with
  | none => .error (.typeError
      "intensity_filter must be of type IntensityFilter, not None")
  | some intf => .ok { s with intensity_filter := intf }

/-- The `pager_level` setter: allowed types `(str, None)`, so `None`
passes the type check and the body unsets the level; a string is stripped
and validated against the four PAGER levels. -/
def efSetPagerLevel (s : EFState) (v : Option String) : Except PyErr EFState :=
  match v with
  | none => .ok { s with pager_level := none }
  | some p =>
    let p := p.trim
    if p ∈ PAGER_LEVELS then .ok { s with pager_level := some p }
    else .error (.valueError "PAGER level must be green, yellow, orange or red.")

/-- Object state after an attempted setter call (the type-check wrapper
raises before the wrapped setter runs, leaving the object untouched). -/
def efSetTimeFilterState (s : EFState) (v : Option TimeFilterState) : EFState :=
  match efSetTimeFilter s v with
  | .ok s2 => s2
  | .error _ => s

/-- See `efSetTimeFilterState`. -/
def efSetLocationFilterState (s : EFState) (v : Option LocState) : EFState :=
  match efSetLocationFilter s v with
  | .ok s2 => s2
  | .error _ => s

/-- See `efSetTimeFilterState`. -/
def efSetDepthFilterState (s : EFState) (v : Option RangeState) : EFState :=
  match efSetDepthFilter s v with
  | .ok s2 => s2
  | .error _ => s

/-- See `efSetTimeFilterState`. -/
def efSetMagnitudeFilterState (s : EFState) (v : Option RangeState) : EFState :=
  match efSetMagnitudeFilter s v with
  | .ok s2 => s2
  | .error _ => s

/-- See `efSetTimeFilterState`. -/
def efSetIntensityFilterState (s : EFState) (v : Option RangeState) : EFState :=
  match efSetIntensityFilter s v with
  | .ok s2 => s2
  | .error _ => s

/-! ## Query serialization (`_requests._get_query_string`)

The serializer is modelled up to the final string join: it produces the
ordered association list of parameters (`params` in the source).  A value
is a string, a finite rational, a possibly-infinite number, an instant,
or a non-negative integer. -/

/-- Service bounds from `_requests.py`. -/
def MIN_DEPTH_KM : PyNum := PyNum.fin (-100)

/-- See `MIN_DEPTH_KM`. -/
def MAX_DEPTH_KM : PyNum := PyNum.fin 9999

/-- See `MIN_DEPTH_KM` (the source constant is spelled `MIN_MAGNTIUDE`). -/
def MIN_MAGNITUDE : PyNum := PyNum.fin (-5)

/-- See `MIN_DEPTH_KM`. -/
def MAX_MAGNITUDE : PyNum := PyNum.fin 12

/-- See `MIN_DEPTH_KM`. -/
def MAX_RADIUS_KM : ℚ := 99999

/-- A wire-parameter value. -/
inductive PVal where
  | str (v : String)
  | rat (v : ℚ)
  | num (v : PyNum)
  | time (v : ℕ)
  | nat (v : ℕ)
deriving DecidableEq, Repr

/-- `_get_query_string(_filt, limit)` up to the string join: the ordered
parameter list.  Time values are the three isoformat instants; a
rectangle emits its four bounds; a circle emits the point and a degree or
kilometre radius (the latter capped at `MAX_RADIUS_KM`); finite depth and
magnitude bounds are emitted with `max(·, floor)` applied to the minima
and `min(·, ceiling)` applied to the maxima; intensity bounds are emitted
only when they differ from `MIN_INTENSITY` / `MAX_INTENSITY`; the PAGER
level only when set; `minfelt` only when `min_reports` is truthy; `limit`
only when supplied. -/
def getQueryParams (f : EFState) (limit : Option ℕ) : List (String × PVal) :=
  [("format", PVal.str "geojson"),
   ("starttime", PVal.time f.time_filter.start),
   ("endtime", PVal.time f.time_filter.endTime),
   ("updatedafter", PVal.time f.time_filter.updated)]
  ++ (match f.location_filter with
      | .rect r =>
        [("minlatitude", PVal.rat r.min_lat),
         ("minlongitude", PVal.rat r.min_long),
         ("maxlatitude", PVal.rat r.max_lat),
         ("maxlongitude", PVal.rat r.max_long)]
      | .circle c =>
        [("latitude", PVal.rat c.lat), ("longitude", PVal.rat c.long),
         ("radius", PVal.rat c.radius)]
      | .circleDist c =>
        [("latitude", PVal.rat c.lat), ("longitude", PVal.rat c.long),
         ("radiuskm", PVal.rat (if c.radius ≤ MAX_RADIUS_KM then c.radius
                                else MAX_RADIUS_KM))])
  ++ (if f.depth_filter.min ≠ PyNum.ninf then
        [("mindepth", PVal.num (PyNum.pymax f.depth_filter.min MIN_DEPTH_KM))]
      else [])
  ++ (if f.depth_filter.max ≠ PyNum.inf then
        [("maxdepth", PVal.num (PyNum.pymin f.depth_filter.max MAX_DEPTH_KM))]
      else [])
  ++ (if f.magnitude_filter.min ≠ PyNum.ninf then
        [("minmag", PVal.num (PyNum.pymax f.magnitude_filter.min MIN_MAGNITUDE))]
      else [])
  ++ (if f.magnitude_filter.max ≠ PyNum.inf then
        [("maxmag", PVal.num (PyNum.pymin f.magnitude_filter.max MAX_MAGNITUDE))]
      else [])
  ++ (if f.intensity_filter.min ≠ PyNum.fin 0 then
        [("minmmi", PVal.num f.intensity_filter.min)]
      else [])
  ++ (if f.intensity_filter.max ≠ PyNum.fin 12 then
        [("maxmmi", PVal.num f.intensity_filter.max)]
      else [])
  ++ (match f.pager_level with
      | some p => [("alertlevel", PVal.str p)]
      | none => [])
  ++ (if f.min_reports ≠ 0 then [("minfelt", PVal.nat f.min_reports)] else [])
  ++ (match limit with
      | some l => [("limit", PVal.nat l)]
      | none => [])

/-! ## Error classification and the count retry loop (`quake.count`)

One network attempt is modelled as an element of `Except PyErr ℕ`: the
decoded count on success, a raised exception otherwise.  The sequence of
attempts the environment would answer with is a function `ℕ → Except
PyErr ℕ` (attempt `i` is the `(i+1)`-th call of `_requests._count`). -/

/-- What `urllib` raises during one attempt, before classification:
`error.HTTPError`, `error.URLError`, `TimeoutError`, or any other
exception (e.g. while decoding the JSON body). -/
inductive RawExc where
  | httpError (reason : String)
  | urlError (reason : String)
  | timeout
  | other (e : PyErr)
deriving DecidableEq, Repr

/-- `_requests._handle_errors`: maps the three transport exception kinds
to the classified errors at the boundary of each attempt and lets every
other exception propagate unchanged. -/
def handleErrors (r : Except RawExc ℕ) : Except PyErr ℕ :=
  match r with
  | .ok v => .ok v
  | .error (.httpError reason) => .error (.httpError reason)
  | .error (.urlError reason) => .error (.requestError reason)
  | .error .timeout => .error .timeoutError
  | .error (.other e) => .error e

/-- Bounds from `quake.py`. -/
def MIN_TIMEOUT : ℚ := 1 / 100

/-- See `MIN_TIMEOUT`. -/
def MAX_TIMEOUT : ℚ := 86400

/-- See `MIN_TIMEOUT`. -/
def MAX_RETRY_COUNT : ℕ := 1000000000000000

/-- The retry loop of `count`: with fuel `n`, attempt `i` is run inside
`with suppress(Exception)` — on success its value is returned, on any
exception the loop moves to the next attempt; with fuel `0` the final
attempt runs outside the loop and its error propagates. -/
def countLoop (attempts : ℕ → Except PyErr ℕ) (i : ℕ) : ℕ → Except PyErr ℕ
  | 0 => attempts i
  | n + 1 =>
    match attempts i with
    | .ok v => .ok v
    | .error _ => countLoop attempts (i + 1) n

/-- `quake.count` after the timeout check: validates `retry_count`
(`None` is allowed; a negative integer is a `ValueError`), clamps the
effective budget with `min(MAX_RETRY_COUNT if retry_count is None else
retry_count, MAX_RETRY_COUNT)`, and runs the loop. -/
def countValidated (attempts : ℕ → Except PyErr ℕ) (retryCount : Option ℤ) :
    Except PyErr ℕ :=
  match retryCount with
  | some rc =>
    if rc < 0 then .error (.valueError "Retry count must not be less than 0")
    else countLoop attempts 0 (min rc.toNat MAX_RETRY_COUNT)
  | none => countLoop attempts 0 MAX_RETRY_COUNT

/-- `quake.count`.  Argument type checks are static in the embedding; a
numeric timeout is validated against `MIN_TIMEOUT` / `MAX_TIMEOUT` before
the retry checks and before the loop (hence before any serialization or
network attempt); `None` skips the timeout checks. -/
def count (attempts : ℕ → Except PyErr ℕ) (timeout : Option ℚ)
    (retryCount : Option ℤ) : Except PyErr ℕ :=
  match timeout with
  | some t =>
    if t < MIN_TIMEOUT then
      .error (.valueError "Timeout must not be less than 0.01")
    else if MAX_TIMEOUT < t then
      .error (.valueError "Timeout must not be greater than 86400")
    else countValidated attempts retryCount
  | none => countValidated attempts retryCount

/-- `count` with the raw attempt results, classification applied at each
attempt boundary as in the source (`_count` is decorated with
`_handle_errors`). -/
def countFromRaw (raw : ℕ → Except RawExc ℕ) (timeout : Option ℚ)
    (retryCount : Option ℤ) : Except PyErr ℕ :=
  count (fun i => handleErrors (raw i)) timeout retryCount

/-! ## Concrete instances used by individual theorems -/

/-- An attempt sequence whose first two attempts fail with a transport
error and whose third succeeds with count 5. -/
def c2wAttempts : ℕ → Except PyErr ℕ :=
  fun i => if i < 2 then .error PyErr.timeoutError else .ok 5

/-- An attempt sequence failing with a timeout on every attempt up to
index `MAX_RETRY_COUNT` and succeeding with count 7 afterwards. -/
def c2cexAttempts : ℕ → Except PyErr ℕ :=
  fun i => if i ≤ MAX_RETRY_COUNT then .error PyErr.timeoutError else .ok 7

/-- A raw attempt sequence whose first attempt raises a non-transport
exception (the `ValueError` subclass `json.JSONDecodeError` raised by
`json.loads` on a malformed body) and whose second attempt succeeds. -/
def c3cexRaw : ℕ → Except RawExc ℕ :=
  fun i => if i = 0 then
    .error (.other (.valueError "Expecting value: line 1 column 1 (char 0)"))
  else .ok 42

/-- A default `EarthquakeFilter()` (constructed at tick 0) whose
magnitude filter is `MagnitudeFilter(min_mag=50)`. -/
def efC1mag : EFState :=
  { efDefault 0 with
    magnitude_filter := ⟨PyNum.ninf, PyNum.inf, PyNum.fin 50, PyNum.inf⟩ }

/-- A default `EarthquakeFilter()` (constructed at tick 0) whose depth
filter is `DepthFilter(max_depth=10_000_000)`. -/
def efC1depth : EFState :=
  { efDefault 0 with
    depth_filter := ⟨PyNum.ninf, PyNum.inf, PyNum.ninf, PyNum.fin 10000000⟩ }

/-! ## Helper lemmas (shared) -/

/-- `TimeFilter()` with all arguments `None` yields `timeFilterDefault`. -/
theorem timeFilterInit_default (now : ℕ) :
    timeFilterInit none none none now = .ok (timeFilterDefault now) := rfl

/-- `RectLocationFilter(-90, -360, 90, 360)` yields `rectDefault`. -/
theorem rectInit_default : rectInit (-90) (-360) 90 360 = .ok rectDefault := rfl

/-- `DepthFilter()` / `MagnitudeFilter()` with default arguments yield
`openRangeDefault`. -/
theorem rangeInit_open_default :
    rangeInit PyNum.ninf PyNum.inf PyNum.ninf PyNum.inf = .ok openRangeDefault := rfl

/-- `IntensityFilter()` with default arguments yields `intensityDefault`. -/
theorem intensityFilterInit_default :
    intensityFilterInit (PyNum.fin 0) (PyNum.fin 12) = .ok intensityDefault := rfl

/-- Reduction of `countValidated` at a numeric retry count. -/
theorem countValidated_some (attempts : ℕ → Except PyErr ℕ) (rc : ℤ) :
    countValidated attempts (some rc) =
      if rc < 0 then .error (.valueError "Retry count must not be less than 0")
      else countLoop attempts 0 (min rc.toNat MAX_RETRY_COUNT) := rfl

/-- With fuel `0` the loop is the single final, unsuppressed attempt. -/
theorem countLoop_zero (attempts : ℕ → Except PyErr ℕ) (i : ℕ) :
    countLoop attempts i 0 = attempts i := rfl

/-- A prefix of failing attempts is skipped by the retry loop, whatever
the kinds of the errors. -/
theorem countLoop_skip (attempts : ℕ → Except PyErr ℕ) (k : ℕ) :
    ∀ i m, (∀ j, j < k → ∃ e, attempts (i + j) = .error e) →
    countLoop attempts i (k + m) = countLoop attempts (i + k) m := by
  induction k with
  | zero => intro i m _; simp
  | succ k ih =>
    intro i m h
    obtain ⟨e, he⟩ := h 0 (by omega)
    rw [show i + 0 = i from rfl] at he
    rw [show k + 1 + m = (k + m) + 1 from by omega]
    have hstep : countLoop attempts i ((k + m) + 1) =
        countLoop attempts (i + 1) (k + m) := by
      simp [countLoop, he]
    rw [hstep]
    have h2 : ∀ j, j < k → ∃ e2, attempts (i + 1 + j) = .error e2 := by
      intro j hj
      obtain ⟨e2, he2⟩ := h (j + 1) (by omega)
      exact ⟨e2, by rw [show i + 1 + j = i + (j + 1) from by omega]; exact he2⟩
    rw [ih (i + 1) m h2, show i + 1 + k = i + (k + 1) from by omega]

/-- A successful attempt stops the loop at once, with the success value. -/
theorem countLoop_ok (attempts : ℕ → Except PyErr ℕ) (i n v : ℕ)
    (h : attempts i = .ok v) : countLoop attempts i n = .ok v := by
  cases n with
  | zero => simpa [countLoop] using h
  | succ n => simp [countLoop, h]

/-! ## Claim theorems -/

/-- Claim C1 (code bug, evaluation at the failing input): the serializer
clamps each finite maximum bound only from above and each finite minimum
bound only from below.  `DepthFilter(max_depth=10_000_000)` does serialize
`maxdepth=9999` as claimed, but `MagnitudeFilter(min_mag=50)` serializes
`minmag=50`, not the claimed `minmag=12`: the source computes
`max(_filt.magnitude_filter.min, MIN_MAGNTIUDE)`, a floor-only clamp, so
a finite magnitude bound is not confined to `[-5, 12]`.  The repository's
own test (`test_requests.py`, the `extreme` case) expects `minmag=12`,
`maxmag=12` and `mindepth=9999` there, so the code contradicts its test. -/
theorem serializer_one_sided_clamp_eval :
    magnitudeFilterInit (PyNum.fin 50) PyNum.inf =
      .ok ⟨PyNum.ninf, PyNum.inf, PyNum.fin 50, PyNum.inf⟩ ∧
    depthFilterInit PyNum.ninf (PyNum.fin 10000000) =
      .ok ⟨PyNum.ninf, PyNum.inf, PyNum.ninf, PyNum.fin 10000000⟩ ∧
    List.lookup "maxdepth" (getQueryParams efC1depth none) =
      some (PVal.num (PyNum.fin 9999)) ∧
    List.lookup "minmag" (getQueryParams efC1mag none) =
      some (PVal.num (PyNum.fin 50)) ∧
    PVal.num (PyNum.fin 50) ≠ PVal.num (PyNum.fin 12) := by
  refine ⟨rfl, rfl, rfl, rfl, by simp⟩

/-- Claim C2 (amended: the property holds for every retry budget
`N ≤ MAX_RETRY_COUNT`, the internal cap that `count` applies to numeric
budgets as well as to the `None` sentinel): if the first `N` attempts
fail, then a success on attempt `N+1` is returned; a failure on attempt
`N+1` propagates as exactly that attempt's classified error; and a budget
of `0` means the single unsuppressed attempt `attempts 0`. -/
theorem count_retry_semantics (attempts : ℕ → Except PyErr ℕ) (N : ℕ)
    (hN : N ≤ MAX_RETRY_COUNT)
    (hfail : ∀ i, i < N → ∃ e, attempts i = .error e) :
    (∀ v, attempts N = .ok v → count attempts none (some (N : ℤ)) = .ok v) ∧
    (∀ e, attempts N = .error e →
      count attempts none (some (N : ℤ)) = .error e) ∧
    count attempts none (some 0) = attempts 0 := by
  have hrun : count attempts none (some (N : ℤ)) = attempts N := by
    show countValidated attempts (some (N : ℤ)) = attempts N
    rw [countValidated_some, if_neg (by omega)]
    rw [show ((N : ℤ)).toNat = N from by omega]
    rw [min_eq_left hN]
    have := countLoop_skip attempts N 0 0
      (by intro j hj; simpa using hfail j hj)
    rw [show N + 0 = N from rfl] at this
    rw [show (0 : ℕ) + N = N from by omega] at this
    rw [this, countLoop_zero]
  refine ⟨fun v hv => by rw [hrun, hv], fun e he => by rw [hrun, he], rfl⟩

/-- Claim C2 witness: retry budget 2, attempts 0 and 1 fail, attempt 2
succeeds with 5, and `count` returns 5. -/
theorem count_retry_semantics_witness :
    count c2wAttempts none (some ((2 : ℕ) : ℤ)) = .ok 5 :=
  (count_retry_semantics c2wAttempts 2 (by norm_num [MAX_RETRY_COUNT])
    (by intro i hi; exact ⟨PyErr.timeoutError, by simp [c2wAttempts, hi]⟩)).1
    5 (by simp [c2wAttempts])

/-- Claim C2 counterexample: for the retry budget
`N = MAX_RETRY_COUNT + 1` the claim as stated fails.  The first `N`
attempts (indices `0 .. MAX_RETRY_COUNT`) of `c2cexAttempts` fail and its
attempt `N+1` succeeds with 7, so the claim predicts `.ok 7`; but `count`
clamps the numeric budget with `min(retry_count, MAX_RETRY_COUNT)` and
raises the final clamped attempt's error instead. -/
theorem count_retry_budget_over_cap_cex :
    c2cexAttempts 0 = .error PyErr.timeoutError ∧
    c2cexAttempts MAX_RETRY_COUNT = .error PyErr.timeoutError ∧
    c2cexAttempts (MAX_RETRY_COUNT + 1) = .ok 7 ∧
    count c2cexAttempts none (some ((MAX_RETRY_COUNT : ℤ) + 1)) =
      .error PyErr.timeoutError := by
  refine ⟨by simp [c2cexAttempts], by simp [c2cexAttempts],
    by simp [c2cexAttempts], ?_⟩
  show countValidated c2cexAttempts (some ((MAX_RETRY_COUNT : ℤ) + 1)) = _
  rw [countValidated_some, if_neg (by omega)]
  rw [show ((MAX_RETRY_COUNT : ℤ) + 1).toNat = MAX_RETRY_COUNT + 1 from by omega]
  rw [min_eq_right (by omega : MAX_RETRY_COUNT ≤ MAX_RETRY_COUNT + 1)]
  have := countLoop_skip c2cexAttempts MAX_RETRY_COUNT 0 0
    (by intro j hj; exact ⟨PyErr.timeoutError, by simp [c2cexAttempts]; omega⟩)
  rw [show MAX_RETRY_COUNT + 0 = MAX_RETRY_COUNT from rfl] at this
  rw [show (0 : ℕ) + MAX_RETRY_COUNT = MAX_RETRY_COUNT from by omega] at this
  rw [this, countLoop_zero]
  simp [c2cexAttempts]

/-- Claim C3 (amended): during the retry loop of `count`, every exception
raised by a non-final attempt is suppressed, whatever its kind — the loop
body runs under `with suppress(Exception)`, not under a handler limited
to the classified transport errors.  For any error value `e` (transport
or not) raised on the first attempt, a later success is still returned. -/
theorem count_suppresses_all_error_kinds (e : PyErr) (v N : ℕ)
    (h1 : 1 ≤ N) (h2 : N ≤ MAX_RETRY_COUNT) :
    count (fun i => if i = 0 then .error e else .ok v) none (some (N : ℤ)) =
      .ok v := by
  show countValidated _ (some (N : ℤ)) = _
  rw [countValidated_some, if_neg (by omega)]
  rw [show ((N : ℤ)).toNat = N from by omega, min_eq_left h2]
  obtain ⟨n, rfl⟩ : ∃ n, N = n + 1 := ⟨N - 1, by omega⟩
  have hstep : countLoop (fun i => if i = 0 then .error e else .ok v) 0 (n + 1) =
      countLoop (fun i => if i = 0 then .error e else .ok v) 1 n := by
    simp [countLoop]
  rw [hstep]
  exact countLoop_ok _ 1 n v (by simp)

/-- Claim C3 witness: a `ValueError` (not a transport error) on attempt 0
with retry budget 1 is suppressed and the second attempt's count 42 is
returned. -/
theorem count_suppresses_all_error_kinds_witness :
    count (fun i => if i = 0 then .error (PyErr.valueError "boom") else .ok 42)
      none (some ((1 : ℕ) : ℤ)) = .ok 42 :=
  count_suppresses_all_error_kinds (PyErr.valueError "boom") 42 1 (by norm_num)
    (by norm_num [MAX_RETRY_COUNT])

/-- Claim C3 counterexample: with retry budget 1, a raw first attempt
raising a non-transport exception (a JSON decode `ValueError`, which
`_handle_errors` passes through unclassified) does not propagate
immediately as the claim states: `count` swallows it and returns the
second attempt's success value. -/
theorem count_nontransport_suppressed_cex :
    PyErr.isTransport (.valueError "Expecting value: line 1 column 1 (char 0)") =
      false ∧
    handleErrors (c3cexRaw 0) =
      .error (.valueError "Expecting value: line 1 column 1 (char 0)") ∧
    countFromRaw c3cexRaw none (some 1) = .ok 42 := by
  refine ⟨rfl, rfl, ?_⟩
  show countValidated (fun i => handleErrors (c3cexRaw i)) (some 1) = Except.ok 42
  rw [countValidated_some, if_neg (by omega)]
  rw [show ((1 : ℤ)).toNat = 1 from rfl, min_eq_left (by norm_num [MAX_RETRY_COUNT])]
  have hstep : countLoop (fun i => handleErrors (c3cexRaw i)) 0 1 =
      countLoop (fun i => handleErrors (c3cexRaw i)) 1 0 := by
    simp [countLoop, c3cexRaw, handleErrors]
  rw [hstep, countLoop_zero]
  simp [c3cexRaw, handleErrors]

/-- Claim C4: `TimeFilter` default-filling resolves end → start →
updated.  For every explicit `end`, `TimeFilter(end=end)` has
`start = end - 30 days` when representable (`D30 ≤ end` ticks), else
`start = end`; and whenever `updated` is omitted (with any `start`
argument), the resolved `updated` equals the resolved `start`. -/
theorem timeFilter_default_resolution (e now : ℕ) :
    timeFilterInit none (some e) none now =
      .ok ⟨if D30 ≤ e then e - D30 else e, e, if D30 ≤ e then e - D30 else e⟩ ∧
    (∀ (sArg : Option ℕ) (st : TimeFilterState),
      timeFilterInit sArg (some e) none now = .ok st → st.updated = st.start) := by
  constructor
  · rfl
  · intro sArg st h
    cases sArg with
    | none =>
      unfold timeFilterInit at h
      simp only [Option.getD] at h
      cases h
      rfl
    | some s =>
      unfold timeFilterInit at h
      simp only [Option.getD] at h
      split at h
      · exact absurd h (by simp)
      · cases h; rfl

/-- Claim C4 witness: `TimeFilter(start=5, end=D30)` with `updated`
omitted resolves `updated = start`. -/
theorem timeFilter_default_resolution_witness :
    TimeFilterState.updated ⟨5, D30, 5⟩ = TimeFilterState.start ⟨5, D30, 5⟩ :=
  (timeFilter_default_resolution D30 0).2 (some 5) ⟨5, D30, 5⟩ (by rfl)

/-- Claim C5: a default `EarthquakeFilter()` (whatever the construction
instant `now`) serialized with no count cap yields exactly the
output-format parameter, the three time parameters and the four
whole-Earth rectangle bounds — in particular none of `mindepth`,
`maxdepth`, `minmag`, `maxmag`, `minmmi`, `maxmmi`, `alertlevel` or
`minfelt` — with the rectangle bounds spanning latitude `[-90, 90]` and
longitude `[-360, 360]`. -/
theorem efDefault_serialization (now : ℕ) :
    efInit none none none none none none 0 now = .ok (efDefault now) ∧
    (getQueryParams (efDefault now) none).map Prod.fst =
      ["format", "starttime", "endtime", "updatedafter",
       "minlatitude", "minlongitude", "maxlatitude", "maxlongitude"] ∧
    List.lookup "minlatitude" (getQueryParams (efDefault now) none) =
      some (PVal.rat (-90)) ∧
    List.lookup "minlongitude" (getQueryParams (efDefault now) none) =
      some (PVal.rat (-360)) ∧
    List.lookup "maxlatitude" (getQueryParams (efDefault now) none) =
      some (PVal.rat 90) ∧
    List.lookup "maxlongitude" (getQueryParams (efDefault now) none) =
      some (PVal.rat 360) ∧
    List.lookup "starttime" (getQueryParams (efDefault now) none) =
      some (PVal.time (timeFilterDefault now).start) ∧
    List.lookup "endtime" (getQueryParams (efDefault now) none) =
      some (PVal.time now) ∧
    List.lookup "updatedafter" (getQueryParams (efDefault now) none) =
      some (PVal.time (timeFilterDefault now).updated) :=
  ⟨rfl, rfl, rfl, rfl, rfl, rfl, rfl, rfl, rfl⟩

/-- Claim C6: a `RectLocationFilter` accepts `min_long`/`max_long`
anywhere in the doubled range `[-360, 360]` subject to `min ≤ max`, and
rejects values outside it, at construction and on every mutation; and in
every reachable state `-90 ≤ min_lat ≤ max_lat ≤ 90` and
`-360 ≤ min_long ≤ max_long ≤ 360` hold. -/
theorem rectFilter_doubled_range_invariant :
    (∀ a b c d : ℚ, (∃ s, rectInit a b c d = .ok s) ↔
      (-90 ≤ a ∧ a ≤ c ∧ c ≤ 90 ∧ -360 ≤ b ∧ b ≤ d ∧ d ≤ 360)) ∧
    (∀ s : RectState, RectReachable s → RectInv s) ∧
    (∀ (s : RectState) (v : ℚ), (∃ s2, rectSetMinLong s v = .ok s2) ↔
      (-360 ≤ v ∧ v ≤ s.max_long)) ∧
    (∀ (s : RectState) (v : ℚ), (∃ s2, rectSetMaxLong s v = .ok s2) ↔
      (s.min_long ≤ v ∧ v ≤ 360)) := by
  refine ⟨?_, ?_, ?_, ?_⟩
  · intro a b c d
    constructor
    · rintro ⟨s, h⟩
      unfold rectInit at h
      split_ifs at h with h1 h2 h3 h4 h5 h6
      exact ⟨not_lt.mp h1, not_lt.mp h4, not_lt.mp h3,
             not_lt.mp h2, not_lt.mp h6, not_lt.mp h5⟩
    · rintro ⟨h1, h2, h3, h4, h5, h6⟩
      refine ⟨⟨a, b, c, d⟩, ?_⟩
      unfold rectInit
      rw [if_neg (not_lt.mpr h1), if_neg (not_lt.mpr h4),
          if_neg (not_lt.mpr h3), if_neg (not_lt.mpr h2),
          if_neg (not_lt.mpr h6), if_neg (not_lt.mpr h5)]
  · intro s h
    induction h with
    | init a b c d s h =>
      unfold rectInit at h
      split_ifs at h with h1 h2 h3 h4 h5 h6
      cases h
      exact ⟨not_lt.mp h1, not_lt.mp h4, not_lt.mp h3,
             not_lt.mp h2, not_lt.mp h6, not_lt.mp h5⟩
    | setMinLat s v s2 hs h ih =>
      unfold rectSetMinLat at h
      split_ifs at h with h1 h2
      cases h
      exact ⟨not_lt.mp h1, not_lt.mp h2, ih.2.2.1, ih.2.2.2.1,
             ih.2.2.2.2.1, ih.2.2.2.2.2⟩
    | setMinLong s v s2 hs h ih =>
      unfold rectSetMinLong at h
      split_ifs at h with h1 h2
      cases h
      exact ⟨ih.1, ih.2.1, ih.2.2.1, not_lt.mp h1, not_lt.mp h2,
             ih.2.2.2.2.2⟩
    | setMaxLat s v s2 hs h ih =>
      unfold rectSetMaxLat at h
      split_ifs at h with h1 h2
      cases h
      exact ⟨ih.1, not_lt.mp h2, not_lt.mp h1, ih.2.2.2.1,
             ih.2.2.2.2.1, ih.2.2.2.2.2⟩
    | setMaxLong s v s2 hs h ih =>
      unfold rectSetMaxLong at h
      split_ifs at h with h1 h2
      cases h
      exact ⟨ih.1, ih.2.1, ih.2.2.1, ih.2.2.2.1, not_lt.mp h2,
             not_lt.mp h1⟩
  · intro s v
    constructor
    · rintro ⟨s2, h⟩
      unfold rectSetMinLong at h
      split_ifs at h with h1 h2
      exact ⟨not_lt.mp h1, not_lt.mp h2⟩
    · rintro ⟨h1, h2⟩
      refine ⟨{ s with min_long := v }, ?_⟩
      unfold rectSetMinLong
      rw [if_neg (not_lt.mpr h1), if_neg (not_lt.mpr h2)]
  · intro s v
    constructor
    · rintro ⟨s2, h⟩
      unfold rectSetMaxLong at h
      split_ifs at h with h1 h2
      exact ⟨not_lt.mp h2, not_lt.mp h1⟩
    · rintro ⟨h1, h2⟩
      refine ⟨{ s with max_long := v }, ?_⟩
      unfold rectSetMaxLong
      rw [if_neg (not_lt.mpr h2), if_neg (not_lt.mpr h1)]

/-- Claim C6 witness: the whole-Earth rectangle is reachable (it is the
constructor's output on `(-90, -360, 90, 360)`) and satisfies the
invariant. -/
theorem rectFilter_doubled_range_invariant_witness : RectInv rectDefault :=
  rectFilter_doubled_range_invariant.2.1 rectDefault
    (RectReachable.init (-90) (-360) 90 360 rectDefault rectInit_default)

/-- Claim C7: for every range-filter state and every attempted endpoint
value violating a domain bound or the `min ≤ max` invariant, the call
fails with a `ValueError` and the stored state is exactly the prior
state; a construction whose arguments violate a domain bound or
`min ≤ max` fails the same way. -/
theorem rangeFilter_reject_preserves_state :
    (∀ (s : RangeState) (v : PyNum),
      ((PyNum.lt v s.actualMin = true ∨ PyNum.lt s.max v = true) →
        (∃ m, rangeSetMin s v = .error (.valueError m)) ∧
        rangeSetMinState s v = s) ∧
      ((PyNum.lt s.actualMax v = true ∨ PyNum.lt v s.min = true) →
        (∃ m, rangeSetMax s v = .error (.valueError m)) ∧
        rangeSetMaxState s v = s)) ∧
    (∀ a b dmin dmax : PyNum,
      (PyNum.lt a dmin = true ∨ PyNum.lt dmax b = true ∨ PyNum.lt b a = true) →
      ∃ m, rangeInit a b dmin dmax = .error (.valueError m)) := by
  constructor
  · intro s v
    constructor
    · intro hv
      have herr : ∃ m, rangeSetMin s v = .error (.valueError m) := by
        unfold rangeSetMin
        by_cases h1 : PyNum.lt v s.actualMin = true
        · exact ⟨_, by rw [if_pos h1]⟩
        · rcases hv with hv | hv
          · exact absurd hv h1
          · exact ⟨_, by rw [if_neg h1, if_pos hv]⟩
      obtain ⟨m, hm⟩ := herr
      refine ⟨⟨m, hm⟩, ?_⟩
      unfold rangeSetMinState
      rw [hm]
    · intro hv
      have herr : ∃ m, rangeSetMax s v = .error (.valueError m) := by
        unfold rangeSetMax
        by_cases h1 : PyNum.lt s.actualMax v = true
        · exact ⟨_, by rw [if_pos h1]⟩
        · rcases hv with hv | hv
          · exact absurd hv h1
          · exact ⟨_, by rw [if_neg h1, if_pos hv]⟩
      obtain ⟨m, hm⟩ := herr
      refine ⟨⟨m, hm⟩, ?_⟩
      unfold rangeSetMaxState
      rw [hm]
  · intro a b dmin dmax h
    unfold rangeInit
    split_ifs with h1 h2 h3 h4
    · exact ⟨_, rfl⟩
    · exact ⟨_, rfl⟩
    · exact ⟨_, rfl⟩
    · exact ⟨_, rfl⟩
    · rcases h with h | h | h
      · exact absurd h h1
      · exact absurd h h3
      · exact absurd h h4

/-- Claim C7 witness: on the intensity-like state with domain `[0, 12]`
and current range `[1, 5]`, setting min to 7 (above the current max)
fails with a `ValueError` and leaves the state unchanged. -/
theorem rangeFilter_reject_preserves_state_witness :
    (∃ m, rangeSetMin ⟨PyNum.fin 0, PyNum.fin 12, PyNum.fin 1, PyNum.fin 5⟩
        (PyNum.fin 7) = .error (.valueError m)) ∧
    rangeSetMinState ⟨PyNum.fin 0, PyNum.fin 12, PyNum.fin 1, PyNum.fin 5⟩
        (PyNum.fin 7) = ⟨PyNum.fin 0, PyNum.fin 12, PyNum.fin 1, PyNum.fin 5⟩ :=
  (rangeFilter_reject_preserves_state.1 _ _).1 (Or.inr (by decide))

/-- Claim C8: for every positive radius `r`, setting `radius_mi` to `r`
succeeds, stores the kilometre value `r * 1.609344` canonically, and
reading `radius_mi` back — which converts the stored kilometres through
the ratio table (`value * (table[from] / table[to])`) — reproduces `r`
exactly in the rational model (hence within floating-point tolerance in
the source). -/
theorem cdlf_radius_mi_roundtrip (s : CircleDistState) (r : ℚ) (h : 0 < r) :
    cdlfSetRadiusMi s r = .ok { s with radius := r * (1609344 / 1000000) } ∧
    cdlfRadiusKm { s with radius := r * (1609344 / 1000000) } =
      r * (1609344 / 1000000) ∧
    cdlfRadiusMi { s with radius := r * (1609344 / 1000000) } = some r := by
  have hpos : (0 : ℚ) < r * (1609344 / 1000000) := by positivity
  refine ⟨?_, rfl, ?_⟩
  · have h1 : cdlfSetRadiusMi s r =
        if r * (1609344 / 1000000 / 1) < 0 then
          .error (.valueError "Radius must not be less than 0")
        else .ok { s with radius := r * (1609344 / 1000000 / 1) } := rfl
    rw [h1, div_one, if_neg (not_lt.mpr hpos.le)]
  · have h2 : cdlfRadiusMi { s with radius := r * (1609344 / 1000000) } =
        some (r * (1609344 / 1000000) * (1 / (1609344 / 1000000))) := rfl
    rw [h2, mul_assoc]
    norm_num

/-- Claim C8 witness: radius 5 miles round-trips through the stored
kilometre value. -/
theorem cdlf_radius_mi_roundtrip_witness :
    cdlfSetRadiusMi ⟨0, 0, 1⟩ 5 = .ok ⟨0, 0, 5 * (1609344 / 1000000)⟩ ∧
    cdlfRadiusKm ⟨0, 0, 5 * (1609344 / 1000000)⟩ = 5 * (1609344 / 1000000) ∧
    cdlfRadiusMi ⟨0, 0, 5 * (1609344 / 1000000)⟩ = some 5 :=
  cdlf_radius_mi_roundtrip ⟨0, 0, 1⟩ 5 (by norm_num)

/-- Claim C9: after construction, assigning `None` to any of the five
sub-filter setters of an `EarthquakeFilter` raises a `TypeError` (the
type-check wrapper rejects `None` before the assignment runs) and leaves
the field unchanged — it does not restore the canonical default; only
the `pager_level` setter accepts `None`, which unsets the level. -/
theorem efSetters_reject_none (s : EFState) :
    (∃ m, efSetTimeFilter s none = .error (.typeError m)) ∧
    efSetTimeFilterState s none = s ∧
    (∃ m, efSetLocationFilter s none = .error (.typeError m)) ∧
    efSetLocationFilterState s none = s ∧
    (∃ m, efSetDepthFilter s none = .error (.typeError m)) ∧
    efSetDepthFilterState s none = s ∧
    (∃ m, efSetMagnitudeFilter s none = .error (.typeError m)) ∧
    efSetMagnitudeFilterState s none = s ∧
    (∃ m, efSetIntensityFilter s none = .error (.typeError m)) ∧
    efSetIntensityFilterState s none = s ∧
    efSetPagerLevel s none = .ok { s with pager_level := none } :=
  ⟨⟨_, rfl⟩, rfl, ⟨_, rfl⟩, rfl, ⟨_, rfl⟩, rfl, ⟨_, rfl⟩, rfl, ⟨_, rfl⟩, rfl, rfl⟩

/-- Claim C10: a numeric timeout below `MIN_TIMEOUT = 0.01` or above
`MAX_TIMEOUT = 86400` makes `count` raise a `ValueError` regardless of
what any attempt would return (the check precedes the retry loop, hence
any serialization or network attempt); a `None` timeout passes straight
through to the validated retry logic. -/
theorem count_timeout_validation :
    (∀ (t : ℚ) (attempts : ℕ → Except PyErr ℕ) (rc : Option ℤ),
      (t < MIN_TIMEOUT ∨ MAX_TIMEOUT < t) →
      ∃ m, count attempts (some t) rc = .error (.valueError m)) ∧
    (∀ (attempts : ℕ → Except PyErr ℕ) (rc : Option ℤ),
      count attempts none rc = countValidated attempts rc) := by
  constructor
  · intro t a rc h
    show ∃ m, (if t < MIN_TIMEOUT then
        Except.error (PyErr.valueError "Timeout must not be less than 0.01")
      else if MAX_TIMEOUT < t then
        Except.error (PyErr.valueError "Timeout must not be greater than 86400")
      else countValidated a rc) = .error (.valueError m)
    by_cases h1 : t < MIN_TIMEOUT
    · exact ⟨_, by rw [if_pos h1]⟩
    · rcases h with h | h
      · exact absurd h h1
      · exact ⟨_, by rw [if_neg h1, if_pos h]⟩
  · intro a rc
    rfl

/-- Claim C10 witness: timeout 86401 is rejected with a `ValueError`
before any attempt, whatever the attempts would return. -/
theorem count_timeout_validation_witness :
    ∃ m, count (fun _ => .ok 0) (some 86401) none = .error (.valueError m) :=
  count_timeout_validation.1 86401 (fun _ => .ok 0) none
    (Or.inr (by norm_num [MAX_TIMEOUT]))
